import Mathlib

/-!
Verification of the nnet `node` package (remotenode.go, middleware.go):
a shallow embedding of the frame codec, the send path, the lifecycle
guards and the middleware (event hook) registry, together with theorems
settling the specification claims about them.
-/

namespace NNet

/-- Modelled from the spec: `msgLenBytes` is declared elsewhere in the
repository (not in the two files under inspection); the spec fixes the wire
format's length prefix at 4 bytes, big-endian. -/
def msgLenBytes : Nat := 4

/-- remotenode.go: max number of msg to be sent that can be buffered. -/
def remoteTxMsgChanLen : Nat := 23333

/-- remotenode.go: max number of msg received that can be buffered. -/
def remoteRxMsgChanLen : Nat := 23333

/-- Go's `binary.BigEndian.Uint32` applied to the first 4 bytes. Bytes are
carried as `Nat` and reduced mod 256 (Go's byte is uint8, so the reduction
is the identity on values the program can hold). -/
def beUint32 (bs : List Nat) : Nat :=
  (bs.getD 0 0 % 256) * 16777216 + (bs.getD 1 0 % 256) * 65536 +
    (bs.getD 2 0 % 256) * 256 + bs.getD 3 0 % 256

/-- The `rxBuf` field of `RemoteNode`: the partial-frame reassembly state.
Go declares `len` as `int`; every value the program writes to it is
non-negative (zero, `int` of a `uint32` on 64-bit int, or a positive
difference), so it is carried as a `Nat` here, and the source's signedness
test is rendered on its `Int` image at the one place it occurs. -/
structure RxBuf where
  buf : List Nat
  len : Nat
deriving Repr, DecidableEq

/-- `readBuf` of remotenode.go, fuel-indexed. The Go function recurses on
the remainder of the read after each completed frame; each recursion level
either returns or consumes input bytes (except for one corner state that is
unreachable from the empty initial state and immediately leads to a
consuming level), so a fuel of the read's length plus two always suffices;
`readBuf` below supplies that amount, making the fuel-exhausted branch
unreachable.

The result carries the updated `rxBuf` state together with the byte slices
passed, in order, to `handleMsgBuf` (the deserialization step). The Go body
phase after the header block is rendered twice (once on the path through
the header block with `buf` advanced, once on the path that skips it),
mirroring the single fall-through body of the source.

Note the source's delivery slices: `handleMsgBuf(buf)` and
`handleMsgBuf(buf[0:msgLen])` are taken from the current read only; the
bytes previously accumulated in `rxBuf.buf` are never part of them. -/
def readBufAux : Nat → RxBuf → List Nat → Except String (RxBuf × List (List Nat))
  | 0, _, _ => .error "out of fuel"
  | fuel + 1, s, buf =>
    if buf.length = 0 then .ok (s, [])
    else if s.len = 0 then
      -- Go: length := msgLenBytes - len(rn.rxBuf.buf); a negative value
      -- would make buf[0:length] panic; unreachable from the initial state.
      if msgLenBytes < s.buf.length then .error "slice bounds out of range"
      else if msgLenBytes - s.buf.length > buf.length then
        .ok (⟨s.buf ++ buf, 0⟩, [])
      else
        let need := msgLenBytes - s.buf.length
        let hdrBuf := s.buf ++ buf.take need
        let msgLen := beUint32 hdrBuf
        -- Go: rn.rxBuf.len = int(binary.BigEndian.Uint32(rn.rxBuf.buf));
        -- with 64-bit int the uint32 value is preserved, so the test
        -- `rn.rxBuf.len < 0` is the test below (and never fires).
        if (msgLen : Int) < 0 then .error "Message length overflow"
        else
          let buf1 := buf.drop need
          if buf1.length = msgLen then .ok (⟨[], 0⟩, [buf1])
          else if buf1.length < msgLen then
            .ok (⟨hdrBuf ++ buf1, msgLen - buf1.length⟩, [])
          else
            match readBufAux fuel ⟨[], 0⟩ (buf1.drop msgLen) with
            | .ok (s2, out) => .ok (s2, buf1.take msgLen :: out)
            | .error e => .error e
    else
      let msgLen := s.len
      if buf.length = msgLen then .ok (⟨[], 0⟩, [buf])
      else if buf.length < msgLen then
        .ok (⟨s.buf ++ buf, msgLen - buf.length⟩, [])
      else
        match readBufAux fuel ⟨[], 0⟩ (buf.drop msgLen) with
        | .ok (s2, out) => .ok (s2, buf.take msgLen :: out)
        | .error e => .error e

/-- `readBuf` of remotenode.go (see `readBufAux` for the fuel bound). -/
def readBuf (s : RxBuf) (buf : List Nat) : Except String (RxBuf × List (List Nat)) :=
  readBufAux (buf.length + 2) s buf

/-- The rx loop's successive `readBuf` calls: feed a sequence of socket
reads through the codec, collecting everything handed to `handleMsgBuf`. -/
def feedReads : RxBuf → List (List Nat) → Except String (RxBuf × List (List Nat))
  | s, [] => .ok (s, [])
  | s, r :: rest =>
    match readBuf s r with
    | .error e => .error e
    | .ok (s1, out) =>
      match feedReads s1 rest with
      | .error e => .error e
      | .ok (s2, outs) => .ok (s2, out ++ outs)

/-- The result of one `conn.Read` in the rx loop. -/
inductive ReadResult where
  | bytes (bs : List Nat)
  | eof
  | readErr (msg : String)

/-- Observable outcome of one rx loop iteration. -/
structure RxIter where
  state : RxBuf
  delivered : List (List Nat)
  stopCalled : Bool
deriving Repr, DecidableEq

/-- One iteration of `rx` in remotenode.go: a successful read is fed to
`readBuf`, and a `readBuf` error is only logged (`log.Warn`) — the loop
neither calls `Stop` nor resets the reassembly state; `io.EOF` and read
errors call `rn.Stop`. On the (log-only) error branch the pre-call state is
kept; the source mutates `rxBuf` in place before erroring, but its only
error paths are unreachable from the initial state, so the difference is
not observable on reachable states. -/
def rxStep (s : RxBuf) (r : ReadResult) : RxIter :=
  match r with
  | .bytes bs =>
    match readBuf s bs with
    | .ok (s1, out) => ⟨s1, out, false⟩
    | .error _ => ⟨s, [], false⟩
  | .eof => ⟨s, [], true⟩
  | .readErr _ => ⟨s, [], true⟩

/-- C1: refuted on the spec's own chunking example — the codec loses the
accumulated part of a body split across reads. One well-formed 14-byte
frame (length prefix 10, body bytes 1..10) arriving as reads of 9, 1 and 4
bytes makes `readBuf` hand `handleMsgBuf` only the final 4-byte chunk
`[7, 8, 9, 10]` instead of the complete 10-byte body: the body bytes
accumulated in `rxBuf.buf` across earlier reads are never included in the
delivered slice. -/
theorem readBuf_partial_body_lost :
    feedReads ⟨[], 0⟩ [[0, 0, 0, 10, 1, 2, 3, 4, 5], [6], [7, 8, 9, 10]] =
      .ok (⟨[], 0⟩, [[7, 8, 9, 10]]) ∧
    [[7, 8, 9, 10]] ≠ [[(1 : Nat), 2, 3, 4, 5, 6, 7, 8, 9, 10]] := by
  exact ⟨rfl, by decide⟩

/-- C2: refuted. Feeding the 4 length-prefix bytes 0x80 0x00 0x00 0x00
(declared length 2^31, negative as a signed 32-bit value) is not fatal:
`int(binary.BigEndian.Uint32(...))` is non-negative on 64-bit int, so the
overflow test never fires — `readBuf` succeeds with the codec waiting for
2^31 body bytes, nothing is delivered, and `Stop` is not called. Moreover
an rx-loop iteration whose read succeeds never calls `Stop`, whatever
`readBuf` returns (its errors are only logged). -/
theorem readBuf_highbit_not_fatal :
    rxStep ⟨[], 0⟩ (.bytes [128, 0, 0, 0]) =
      ⟨⟨[128, 0, 0, 0], 2147483648⟩, [], false⟩ ∧
    ∀ (s : RxBuf) (bs : List Nat), (rxStep s (.bytes bs)).stopCalled = false := by
  refine ⟨rfl, ?_⟩
  intro s bs
  cases h : readBuf s bs with
  | error e => simp [rxStep, h]
  | ok p =>
    cases p with
    | mk s1 out => simp [rxStep, h]

/-- Subject handed to the two local-node hook categories; only its identity
matters for the dispatch mechanism. -/
structure LocalNode where
  id : Nat
deriving Repr, DecidableEq

/-- Subject handed to the three remote-node hook categories. -/
structure RemoteNode where
  id : Nat
deriving Repr, DecidableEq

/-- `middlewareStore` of middleware.go: one ordered list of callbacks per
event category. -/
structure middlewareStore where
  localNodeWillStart     : List (LocalNode → Bool)
  localNodeStarted       : List (LocalNode → Bool)
  remoteNodeConnected    : List (RemoteNode → Bool)
  remoteNodeReady        : List (RemoteNode → Bool)
  remoteNodeDisconnected : List (RemoteNode → Bool)

/-- `newMiddlewareStore` of middleware.go. -/
def newMiddlewareStore : middlewareStore :=
  ⟨[], [], [], [], []⟩

/-- The dynamic value handed to `ApplyMiddleware`: one of the five named
callback types (a typed nil function value rendered as `none`), or any
other value (Go's `default` case of the type switch). -/
inductive Middleware where
  | localNodeWillStart (f : Option (LocalNode → Bool))
  | localNodeStarted (f : Option (LocalNode → Bool))
  | remoteNodeConnected (f : Option (RemoteNode → Bool))
  | remoteNodeReady (f : Option (RemoteNode → Bool))
  | remoteNodeDisconnected (f : Option (RemoteNode → Bool))
  | unknownType

/-- `ApplyMiddleware` of middleware.go: the type switch over the five
callback shapes, rejecting nil callbacks and unrecognized values, and
appending a recognized callback to the end of its category's list. -/
def ApplyMiddleware (store : middlewareStore) (f : Middleware) :
    Except String middlewareStore :=
  match f with
  | .localNodeWillStart none => .error "middleware is nil"
  | .localNodeWillStart (some g) =>
    .ok { store with localNodeWillStart := store.localNodeWillStart ++ [g] }
  | .localNodeStarted none => .error "middleware is nil"
  | .localNodeStarted (some g) =>
    .ok { store with localNodeStarted := store.localNodeStarted ++ [g] }
  | .remoteNodeConnected none => .error "middleware is nil"
  | .remoteNodeConnected (some g) =>
    .ok { store with remoteNodeConnected := store.remoteNodeConnected ++ [g] }
  | .remoteNodeReady none => .error "middleware is nil"
  | .remoteNodeReady (some g) =>
    .ok { store with remoteNodeReady := store.remoteNodeReady ++ [g] }
  | .remoteNodeDisconnected none => .error "middleware is nil"
  | .remoteNodeDisconnected (some g) =>
    .ok { store with remoteNodeDisconnected := store.remoteNodeDisconnected ++ [g] }
  | .unknownType => .error "unknown middleware type"

/-- The inputs the registration entry point rejects: a nil callback of a
recognized shape, or a value of unrecognized shape. -/
def rejectedMiddleware : Middleware → Bool
  | .localNodeWillStart none => true
  | .localNodeStarted none => true
  | .remoteNodeConnected none => true
  | .remoteNodeReady none => true
  | .remoteNodeDisconnected none => true
  | .unknownType => true
  | _ => false

/-- `true` exactly on `.ok` results. -/
def isOkB {ε α : Type} : Except ε α → Bool
  | .ok _ => true
  | .error _ => false

/-- The hook dispatch loop shared by `Start` and `Stop` in remotenode.go:
iterate the registered callbacks in registration order, invoke each with
the subject, and break on the first one returning false. The result is the
list of return values of the callbacks actually invoked, in order. -/
def runHooks {α : Type} : List (α → Bool) → α → List Bool
  | [], _ => []
  | f :: rest, x => if f x then true :: runHooks rest x else [false]

/-- The results a veto-respecting dispatch produces: the prefix of the
in-order results up to and including the first false. -/
def takeUntilVeto (rs : List Bool) : List Bool :=
  rs.take ((rs.takeWhile id).length + 1)

theorem runHooks_eq {α : Type} (hs : List (α → Bool)) (x : α) :
    runHooks hs x = takeUntilVeto (hs.map (fun f => f x)) := by
  induction hs with
  | nil => rfl
  | cons f rest ih =>
    by_cases hf : f x
    · simp [runHooks, hf, takeUntilVeto, List.takeWhile_cons] at ih ⊢
      exact ih
    · simp [runHooks, hf, takeUntilVeto, List.takeWhile_cons]

/-- C6: dispatching an event category invokes the registered hooks of that
category in registration order and stops at the first veto — the invoked
results are exactly the prefix of the in-order results up to and including
the first false, so no later-registered hook of that category runs — and
the dispatch loop reads only its own category's list (shown for the two
lists `Start` and `Stop` iterate, `remoteNodeReady` and
`remoteNodeDisconnected`), leaving hooks of other categories unaffected. -/
theorem runHooks_veto (store : middlewareStore) (rn : RemoteNode) :
    runHooks store.remoteNodeReady rn =
      takeUntilVeto (store.remoteNodeReady.map (fun f => f rn)) ∧
    runHooks store.remoteNodeDisconnected rn =
      takeUntilVeto (store.remoteNodeDisconnected.map (fun f => f rn)) :=
  ⟨runHooks_eq _ _, runHooks_eq _ _⟩

/-- C8: `ApplyMiddleware` fails exactly on a nil callback or an
unrecognized shape; otherwise it appends the callback at the end of the
ordered list matching its shape, leaving the other categories unchanged. -/
theorem ApplyMiddleware_spec (s : middlewareStore) (m : Middleware) :
    (isOkB (ApplyMiddleware s m) = false ↔ rejectedMiddleware m = true) ∧
    (∀ g, m = .localNodeWillStart (some g) →
      ApplyMiddleware s m =
        .ok { s with localNodeWillStart := s.localNodeWillStart ++ [g] }) ∧
    (∀ g, m = .localNodeStarted (some g) →
      ApplyMiddleware s m =
        .ok { s with localNodeStarted := s.localNodeStarted ++ [g] }) ∧
    (∀ g, m = .remoteNodeConnected (some g) →
      ApplyMiddleware s m =
        .ok { s with remoteNodeConnected := s.remoteNodeConnected ++ [g] }) ∧
    (∀ g, m = .remoteNodeReady (some g) →
      ApplyMiddleware s m =
        .ok { s with remoteNodeReady := s.remoteNodeReady ++ [g] }) ∧
    (∀ g, m = .remoteNodeDisconnected (some g) →
      ApplyMiddleware s m =
        .ok { s with remoteNodeDisconnected := s.remoteNodeDisconnected ++ [g] }) := by
  rcases m with f | f | f | f | f | _ <;>
    first
      | (cases f <;> simp [ApplyMiddleware, rejectedMiddleware, isOkB])
      | simp [ApplyMiddleware, rejectedMiddleware, isOkB]

/-- A concrete always-true remote-node hook, for witnesses. -/
def sampleHookTrue : RemoteNode → Bool := fun _ => true

/-- A concrete vetoing remote-node hook, for witnesses. -/
def sampleHookFalse : RemoteNode → Bool := fun _ => false

/-- Witness for C8: registering a concrete ready callback on the empty
store appends it to the ready list. -/
theorem ApplyMiddleware_spec_witness :
    ApplyMiddleware newMiddlewareStore (.remoteNodeReady (some sampleHookTrue)) =
      .ok { newMiddlewareStore with
              remoteNodeReady := newMiddlewareStore.remoteNodeReady ++ [sampleHookTrue] } :=
  (ApplyMiddleware_spec newMiddlewareStore
    (.remoteNodeReady (some sampleHookTrue))).2.2.2.2.1 sampleHookTrue rfl

/-- Lifecycle-relevant state of a `RemoteNode`. `StartOnce` and `StopOnce`
are `sync.Once` fields declared on the embedded `Node` (outside the two
files under inspection); per the spec's start-once/stop-once guards each is
carried as a done flag consumed by the first run of its body. `stopped` is
the `LifeCycle` stopped flag read by `IsStopped`. `spawned` records the
goroutines `Start` spawns, in order; `readyRuns` and `disconnectRuns`
record the results of each execution of the corresponding hook loop, so
the length of the list counts executions of that loop. -/
structure RemoteNodeState where
  node : RemoteNode
  startOnceDone : Bool
  stopOnceDone : Bool
  stopped : Bool
  hasConn : Bool
  connClosed : Bool
  spawned : List String
  stopCause : Option String
  readyRuns : List (List Bool)
  disconnectRuns : List (List Bool)
deriving Repr, DecidableEq

/-- The state `NewRemoteNode` hands back: conn is non-nil (a nil conn is
rejected with an error before any state exists), nothing started. -/
def initialRemoteNodeState (n : RemoteNode) : RemoteNodeState :=
  ⟨n, false, false, false, true, false, [], none, [], []⟩

/-- `Stop` of remotenode.go: the `StopOnce`-guarded shutdown body logs the
cause, stops the lifecycle, closes the conn when present, and runs the
`remoteNodeDisconnected` hooks with the veto rule. -/
def Stop (store : middlewareStore) (s : RemoteNodeState) (err : Option String) :
    RemoteNodeState :=
  if s.stopOnceDone then s
  else
    { s with
        stopOnceDone := true
        stopped := true
        connClosed := s.connClosed || s.hasConn
        stopCause := err
        disconnectRuns :=
          s.disconnectRuns ++ [runHooks store.remoteNodeDisconnected s.node] }

/-- Outcome of the address-resolution goroutine spawned by `Start`
(`GetNode`, `net.SplitHostPort`, the empty-port check, and the empty-host
reconciliation against the conn's remote address); the goroutine is
modelled as running to completion after the spawns. -/
inductive ResolveOutcome where
  | getNodeErr (msg : String)
  | splitAddrErr (msg : String)
  | emptyPort
  | connAddrErr (msg : String)
  | resolved

/-- The cause with which the resolution goroutine stops the connection,
`none` when resolution succeeds. -/
def resolveCause : ResolveOutcome → Option String
  | .getNodeErr m => some ("Get node error: " ++ m)
  | .splitAddrErr m => some ("Parse node addr error: " ++ m)
  | .emptyPort => some "Node addr port is empty"
  | .connAddrErr m => some ("Parse conn remote addr error: " ++ m)
  | .resolved => none

/-- `Start` of remotenode.go: inside the `StartOnce` body, a node already
stopped causes an early return (nothing spawned); otherwise the rx, tx and
handleMsg loops and the resolution goroutine are spawned, the goroutine
stopping the connection with a cause on failure and running the
`remoteNodeReady` hooks on success. `Start` itself always returns nil,
rendered as the `Option String` component of the result. -/
def Start (store : middlewareStore) (res : ResolveOutcome) (s : RemoteNodeState) :
    RemoteNodeState × Option String :=
  if s.startOnceDone then (s, none)
  else
    let s1 := { s with startOnceDone := true }
    if s1.stopped then (s1, none)
    else
      let s2 := { s1 with spawned := s1.spawned ++ ["rx", "tx", "handleMsg", "resolve"] }
      match resolveCause res with
      | some c => (Stop store s2 (some c), none)
      | none =>
        ({ s2 with readyRuns := s2.readyRuns ++ [runHooks store.remoteNodeReady s2.node] },
          none)

theorem Stop_done_noop (store : middlewareStore) (t : RemoteNodeState)
    (c : Option String) (hd : t.stopOnceDone = true) : Stop store t c = t := by
  simp [Stop, hd]

theorem foldl_Stop_done (store : middlewareStore) (more : List (Option String)) :
    ∀ t : RemoteNodeState, t.stopOnceDone = true → more.foldl (Stop store) t = t := by
  induction more with
  | nil => intro t _; rfl
  | cons c rest ih =>
    intro t ht
    rw [List.foldl_cons, Stop_done_noop store t c ht]
    exact ih t ht

theorem Stop_spawned (store : middlewareStore) (t : RemoteNodeState)
    (c : Option String) : (Stop store t c).spawned = t.spawned := by
  by_cases hd : t.stopOnceDone <;> simp [Stop, hd]

theorem Stop_startOnceDone (store : middlewareStore) (t : RemoteNodeState)
    (c : Option String) : (Stop store t c).startOnceDone = t.startOnceDone := by
  by_cases hd : t.stopOnceDone <;> simp [Stop, hd]

/-- C3: `Stop` is idempotent. On a node whose stop-once guard is unused,
the first call runs the shutdown body — lifecycle transition, conn close,
one execution of the disconnect-hook loop — and any further calls,
whatever their causes and however many, leave the state exactly as the
first call left it. -/
theorem Stop_idempotent (store : middlewareStore) (s : RemoteNodeState)
    (e1 e2 : Option String) (more : List (Option String))
    (h : s.stopOnceDone = false) :
    Stop store (Stop store s e1) e2 = Stop store s e1 ∧
    more.foldl (Stop store) (Stop store s e1) = Stop store s e1 ∧
    (Stop store s e1).disconnectRuns =
      s.disconnectRuns ++ [runHooks store.remoteNodeDisconnected s.node] ∧
    (Stop store s e1).stopped = true ∧
    (Stop store s e1).connClosed = (s.connClosed || s.hasConn) := by
  have hdone : (Stop store s e1).stopOnceDone = true := by simp [Stop, h]
  refine ⟨Stop_done_noop store _ e2 hdone, foldl_Stop_done store more _ hdone, ?_, ?_, ?_⟩ <;>
    simp [Stop, h]

/-- A concrete store with hooks registered in several categories, for
witnesses. -/
def sampleStore : middlewareStore :=
  { newMiddlewareStore with
      remoteNodeReady := [sampleHookFalse, sampleHookTrue]
      remoteNodeDisconnected := [sampleHookTrue, sampleHookFalse, sampleHookTrue] }

/-- A concrete freshly created remote node, for witnesses. -/
def sampleRN : RemoteNodeState := initialRemoteNodeState ⟨7⟩

/-- Witness for C3 at a concrete store, node and causes. -/
theorem Stop_idempotent_witness :
    Stop sampleStore (Stop sampleStore sampleRN (some "rx eof")) none =
      Stop sampleStore sampleRN (some "rx eof") ∧
    [none, some "again"].foldl (Stop sampleStore) (Stop sampleStore sampleRN (some "rx eof")) =
      Stop sampleStore sampleRN (some "rx eof") ∧
    (Stop sampleStore sampleRN (some "rx eof")).disconnectRuns =
      sampleRN.disconnectRuns ++
        [runHooks sampleStore.remoteNodeDisconnected sampleRN.node] ∧
    (Stop sampleStore sampleRN (some "rx eof")).stopped = true ∧
    (Stop sampleStore sampleRN (some "rx eof")).connClosed =
      (sampleRN.connClosed || sampleRN.hasConn) :=
  Stop_idempotent sampleStore sampleRN (some "rx eof") none [none, some "again"] rfl

theorem Start_noop_done (store : middlewareStore) (res : ResolveOutcome)
    (t : RemoteNodeState) (hd : t.startOnceDone = true) :
    Start store res t = (t, none) := by
  simp [Start, hd]

theorem Start_startOnceDone (store : middlewareStore) (res : ResolveOutcome)
    (s : RemoteNodeState) : (Start store res s).1.startOnceDone = true ∨
      (Start store res s).1 = s ∧ s.startOnceDone = true := by
  by_cases hd : s.startOnceDone
  · right; exact ⟨by simp [Start, hd], hd⟩
  · left
    simp only [Start, hd]
    by_cases hstop : s.stopped
    · simp [hstop]
    · cases hr : resolveCause res <;>
        simp [hstop, hr, Stop_startOnceDone]

/-- C7: `Start` is a no-op when already running or already stopped. Only
the first `Start` on a not-yet-stopped node spawns the rx, tx and
handleMsg loops and the resolution task; a `Start` whose start-once guard
is already consumed returns the state unchanged (so a second `Start`
after any first one spawns nothing), and a `Start` after `Stop` consumes
the guard but spawns nothing. -/
theorem Start_spec (store : middlewareStore) (res res2 : ResolveOutcome)
    (s : RemoteNodeState) :
    (s.startOnceDone = true → Start store res s = (s, none)) ∧
    (s.startOnceDone = false → s.stopped = true →
      Start store res s = ({ s with startOnceDone := true }, none)) ∧
    (s.startOnceDone = false → s.stopped = false →
      (Start store res s).1.spawned =
        s.spawned ++ ["rx", "tx", "handleMsg", "resolve"]) ∧
    Start store res2 (Start store res s).1 = ((Start store res s).1, none) := by
  refine ⟨fun hd => Start_noop_done store res s hd, ?_, ?_, ?_⟩
  · intro hd hstop
    simp [Start, hd, hstop]
  · intro hd hstop
    simp only [Start, hd]
    cases hr : resolveCause res <;>
      simp [hstop, hr, Stop_spawned]
  · rcases Start_startOnceDone store res s with hdone | ⟨heq, hd⟩
    · exact Start_noop_done store res2 _ hdone
    · rw [heq]
      exact Start_noop_done store res2 s hd

/-- Witness for C7: the first `Start` on a fresh node spawns the three
loops and the resolution task. -/
theorem Start_spec_witness :
    (Start sampleStore .resolved sampleRN).1.spawned =
      sampleRN.spawned ++ ["rx", "tx", "handleMsg", "resolve"] :=
  (Start_spec sampleStore .resolved .resolved sampleRN).2.2.1 rfl rfl

/-- C10: `Start` always returns nil, whatever the state and however
address resolution turns out; a resolution failure is surfaced only by
stopping the connection — on a fresh node it leaves the lifecycle stopped
with the failing cause recorded. -/
theorem Start_returns_nil (store : middlewareStore) (res : ResolveOutcome)
    (s : RemoteNodeState) (c : String) :
    (Start store res s).2 = none ∧
    (s.startOnceDone = false → s.stopOnceDone = false → s.stopped = false →
      resolveCause res = some c →
      (Start store res s).1.stopped = true ∧
      (Start store res s).1.stopCause = some c) := by
  constructor
  · by_cases hd : s.startOnceDone
    · simp [Start, hd]
    · simp only [Start, hd]
      by_cases hstop : s.stopped
      · simp [hstop]
      · cases hr : resolveCause res <;> simp [hstop, hr]
  · intro hd hsod hstop hr
    simp [Start, hd, hstop, hr, Stop, hsod]

/-- Witness for C10: a fresh node whose resolution finds an empty port is
stopped with that cause while `Start` still returned nil. -/
theorem Start_returns_nil_witness :
    (Start sampleStore .emptyPort sampleRN).2 = none ∧
    ((Start sampleStore .emptyPort sampleRN).1.stopped = true ∧
      (Start sampleStore .emptyPort sampleRN).1.stopCause =
        some "Node addr port is empty") :=
  ⟨(Start_returns_nil sampleStore .emptyPort sampleRN "Node addr port is empty").1,
    (Start_returns_nil sampleStore .emptyPort sampleRN "Node addr port is empty").2
      rfl rfl rfl rfl⟩

/-- `protobuf.Message`: the fields the send path reads. -/
structure Message where
  messageId : Nat
  routingType : Nat
  payload : List Nat
deriving Repr, DecidableEq

/-- Modelled from the spec: `AllocReplyChan` lives in localnode.go, which
is not among the files under inspection; per the spec it allocates a
one-shot reply slot keyed by the message identifier and fails if one is
already outstanding for that identifier. State is the list of outstanding
identifiers. -/
def AllocReplyChan (outstanding : List Nat) (msgId : Nat) :
    Except String (List Nat) :=
  if msgId ∈ outstanding then .error "reply chan already allocated"
  else .ok (outstanding ++ [msgId])

/-- Modelled from the spec: the reply-correlation registry destroys an
entry on fulfillment or on timeout, whichever comes first (stale entries
must not leak); this is the registry after the slot for `msgId` is
released. -/
def releaseReplySlot (outstanding : List Nat) (msgId : Nat) : List Nat :=
  outstanding.filter (fun i => i != msgId)

/-- The queue and registry state the send path touches: the bounded
`txMsgChan` (capacity `remoteTxMsgChanLen`; a list shorter than the
capacity models a channel with room, Go's non-blocking send succeeding
exactly then) and the local node's outstanding reply identifiers. -/
structure SendState where
  txMsgChan : List Message
  replyIds : List Nat
deriving Repr, DecidableEq

/-- `SendMessage` of remotenode.go: the non-blocking push onto `txMsgChan`
(select with default — an immediate error when the channel is full, the
channel unchanged), then, only when `hasReply`, allocation of the reply
chan; the allocated key is returned in place of the Go channel value. -/
def SendMessage (s : SendState) (msg : Message) (hasReply : Bool) :
    SendState × Except String (Option Nat) :=
  if s.txMsgChan.length < remoteTxMsgChanLen then
    let s1 := { s with txMsgChan := s.txMsgChan ++ [msg] }
    if hasReply then
      match AllocReplyChan s1.replyIds msg.messageId with
      | .error e => (s1, .error e)
      | .ok ids => ({ s1 with replyIds := ids }, .ok (some msg.messageId))
    else (s1, .ok none)
  else (s, .error "Tx msg chan full, discarding msg")

/-- `SendMessageAsync` of remotenode.go. -/
def SendMessageAsync (s : SendState) (msg : Message) : SendState × Option String :=
  match SendMessage s msg false with
  | (s1, .error e) => (s1, some e)
  | (s1, .ok _) => (s1, none)

/-- `SendMessageSync` of remotenode.go: `SendMessage` with `hasReply`, then
a wait on the reply chan against the reply timeout. Real time is
abstracted: the `reply` argument is `some r` when a reply arrives within
the timeout and `none` when it never does. The slot release once the wait
ends is the registry expiry of `releaseReplySlot`, modelled from the
spec. -/
def SendMessageSync (s : SendState) (msg : Message) (reply : Option Message) :
    SendState × Except String Message :=
  match SendMessage s msg true with
  | (s1, .error e) => (s1, .error e)
  | (s1, .ok _) =>
    match reply with
    | some r =>
      ({ s1 with replyIds := releaseReplySlot s1.replyIds msg.messageId }, .ok r)
    | none =>
      ({ s1 with replyIds := releaseReplySlot s1.replyIds msg.messageId },
        .error "Wait for reply timeout")

/-- C5: with `txMsgChan` at capacity, `SendMessage` (either `hasReply`
value) fails immediately with the queue-full error and returns the state
unchanged — nothing is enqueued — and `SendMessageAsync` and
`SendMessageSync` surface the same failure. -/
theorem SendMessage_full (s : SendState) (m : Message) (hasReply : Bool)
    (reply : Option Message)
    (h : remoteTxMsgChanLen ≤ s.txMsgChan.length) :
    SendMessage s m hasReply = (s, .error "Tx msg chan full, discarding msg") ∧
    SendMessageAsync s m = (s, some "Tx msg chan full, discarding msg") ∧
    SendMessageSync s m reply = (s, .error "Tx msg chan full, discarding msg") := by
  have hnot : ¬ s.txMsgChan.length < remoteTxMsgChanLen := by omega
  refine ⟨by simp [SendMessage, hnot], ?_, ?_⟩ <;>
    simp [SendMessageAsync, SendMessageSync, SendMessage, hnot]

/-- A `SendState` whose outbound channel is exactly at capacity. -/
def fullSendState : SendState :=
  ⟨List.replicate remoteTxMsgChanLen ⟨0, 0, []⟩, []⟩

/-- Witness for C5 at a concrete full queue. -/
theorem SendMessage_full_witness :
    SendMessage fullSendState ⟨1, 0, []⟩ true =
      (fullSendState, .error "Tx msg chan full, discarding msg") ∧
    SendMessageAsync fullSendState ⟨1, 0, []⟩ =
      (fullSendState, some "Tx msg chan full, discarding msg") ∧
    SendMessageSync fullSendState ⟨1, 0, []⟩ none =
      (fullSendState, .error "Tx msg chan full, discarding msg") :=
  SendMessage_full fullSendState ⟨1, 0, []⟩ true none
    (by simp [fullSendState])

/-- C9: `SendMessage` enqueues the envelope before attempting reply-slot
allocation, so when allocation fails (a duplicate outstanding message
identifier) it returns the error with the envelope already on `txMsgChan`
— the queue has grown and the tx loop will still transmit it; the
operation is not atomic on this error path. -/
theorem SendMessage_enqueue_before_alloc (s : SendState) (m : Message)
    (hq : s.txMsgChan.length < remoteTxMsgChanLen)
    (hdup : m.messageId ∈ s.replyIds) :
    SendMessage s m true =
      ({ s with txMsgChan := s.txMsgChan ++ [m] },
        .error "reply chan already allocated") := by
  simp [SendMessage, hq, AllocReplyChan, hdup]

/-- Witness for C9: a duplicate identifier still lands on the queue. -/
theorem SendMessage_enqueue_before_alloc_witness :
    SendMessage ⟨[], [1]⟩ ⟨1, 0, []⟩ true =
      ({ (⟨[], [1]⟩ : SendState) with txMsgChan := ([] : List Message) ++ [⟨1, 0, []⟩] },
        .error "reply chan already allocated") :=
  SendMessage_enqueue_before_alloc ⟨[], [1]⟩ ⟨1, 0, []⟩ (by decide) (by decide)

/-- C4: a synchronous send whose reply never arrives fails with the
timeout error, the reply slot keyed by its message identifier is released
once the wait ends, and a second request with the same identifier
afterwards again passes slot allocation — it fails only by its own
timeout, not by duplicate allocation. -/
theorem SendMessageSync_timeout_releases (s : SendState) (m : Message)
    (hq : s.txMsgChan.length + 1 < remoteTxMsgChanLen)
    (hid : m.messageId ∉ s.replyIds) :
    (SendMessageSync s m none).2 = .error "Wait for reply timeout" ∧
    m.messageId ∉ (SendMessageSync s m none).1.replyIds ∧
    (SendMessageSync (SendMessageSync s m none).1 m none).2 =
      .error "Wait for reply timeout" := by
  have hq1 : s.txMsgChan.length < remoteTxMsgChanLen := by omega
  have halloc : AllocReplyChan s.replyIds m.messageId =
      .ok (s.replyIds ++ [m.messageId]) := by
    simp [AllocReplyChan, hid]
  have h1 : SendMessageSync s m none =
      ({ txMsgChan := s.txMsgChan ++ [m],
         replyIds := releaseReplySlot (s.replyIds ++ [m.messageId]) m.messageId },
        .error "Wait for reply timeout") := by
    simp [SendMessageSync, SendMessage, hq1, halloc]
  have hmem : m.messageId ∉ releaseReplySlot (s.replyIds ++ [m.messageId]) m.messageId := by
    simp [releaseReplySlot, List.mem_filter]
  refine ⟨by rw [h1], by rw [h1]; exact hmem, ?_⟩
  rw [h1]
  have hq2 : (s.txMsgChan ++ [m]).length < remoteTxMsgChanLen := by
    simp [List.length_append]; omega
  have halloc2 : AllocReplyChan (releaseReplySlot (s.replyIds ++ [m.messageId]) m.messageId)
      m.messageId =
      .ok (releaseReplySlot (s.replyIds ++ [m.messageId]) m.messageId ++ [m.messageId]) := by
    simp only [AllocReplyChan, if_neg hmem]
  simp [SendMessageSync, SendMessage, hq2, halloc2, hq]

/-- Witness for C4 at a concrete state and message. -/
theorem SendMessageSync_timeout_releases_witness :
    (SendMessageSync ⟨[], []⟩ ⟨1, 0, []⟩ none).2 = .error "Wait for reply timeout" ∧
    (1 : Nat) ∉ (SendMessageSync ⟨[], []⟩ ⟨1, 0, []⟩ none).1.replyIds ∧
    (SendMessageSync (SendMessageSync ⟨[], []⟩ ⟨1, 0, []⟩ none).1 ⟨1, 0, []⟩ none).2 =
      .error "Wait for reply timeout" :=
  SendMessageSync_timeout_releases ⟨[], []⟩ ⟨1, 0, []⟩ (by decide) (by decide)

end NNet
